import Mathlib

/-!
Verification development for the C-style kernel renderer
(`tinygrad/renderer/cstyle.py`).

The renderer consumes a linear sequence of operation records and a target
language profile and produces kernel source text.  The profile type
`CStyleLanguage` and the engine `uops_to_cstyle` below are shallow
embeddings of the source file; the operation-record data model (`UOps`,
`UOp`, `DType`, ...) lives in modules that are not part of this
repository snapshot and is modelled from the specification.

Conventions of the embedding:
* Python exceptions (AssertionError, NotImplementedError, RuntimeError,
  KeyError, IndexError, TypeError) become the `RErr` error type and all
  fallible code returns `Except RErr _`.
* Payload-shape mismatches that Python would surface later as a
  TypeError are modelled as an immediate `RErr.typeError`.
* Python field names ending in reserved words of this development are
  renamed (`size_prefix` -> `sizePre`, `buffer_prefix` -> `bufferPre`,
  `kernel_prefix` -> `kernelPre`, `smem_prefix` -> `smemPre`,
  `arg_int_prefix` -> `argIntPre`, `generic_var_prefix` ->
  `genericVarPre`, `buffer_suffix` -> `bufferSuf`).
-/

/-- Modelled from the spec: the scalar kinds of the semantic type system
(`bool`, signed and unsigned integers, and the two float widths). -/
inductive ScalarKind where
  | bool | int8 | int16 | int32 | int64
  | uint8 | uint16 | uint32 | uint64
  | float16 | float32
deriving DecidableEq, Repr

/-- Modelled from the spec: a semantic type is a scalar kind plus a vector
width (>= 1), a pointer-to-type for buffer declarations, or a
distinguished image type for texture-backed buffers. -/
inductive DType where
  | base (k : ScalarKind) (sz : Nat)
  | ptr (k : ScalarKind)
  | image (nm : String)
deriving DecidableEq, Repr

/-- Modelled from the spec: the printable name of a scalar kind, in the
C-like spelling the backends use. -/
def ScalarKind.cname : ScalarKind → String
  | .bool => "bool" | .int8 => "char" | .int16 => "short"
  | .int32 => "int" | .int64 => "long"
  | .uint8 => "uchar" | .uint16 => "ushort" | .uint32 => "uint"
  | .uint64 => "ulong" | .float16 => "half" | .float32 => "float"

/-- Modelled from the spec: `DType.name`; a vector type's name is the
scalar name with the width appended. -/
def DType.name : DType → String
  | .base k 1 => k.cname
  | .base k n => k.cname ++ toString n
  | .ptr k => k.cname
  | .image nm => nm

/-- Modelled from the spec: the vector width of a type. -/
def DType.sz : DType → Nat
  | .base _ n => n
  | .ptr _ => 1
  | .image _ => 1

/-- Modelled from the spec: the scalar element type. -/
def DType.scalar : DType → DType
  | .base k _ => .base k 1
  | .ptr k => .base k 1
  | .image nm => .image nm

def DType.isPtr : DType → Bool
  | .ptr _ => true
  | _ => false

def DType.isImage : DType → Bool
  | .image _ => true
  | _ => false

/-- Modelled from the spec: the pointer-to-type used for buffer
declarations carries the same printable identity as its element type (in
the source, `PtrDType` copies every field of the element `DType` and the
type is a named tuple, so the two compare equal under `==`).  `canon`
maps a type to that comparison identity. -/
def DType.canon : DType → DType
  | .ptr k => .base k 1
  | d => d

/-- Python `==` on semantic types (a pointer type equals its element
type). -/
def pyEq (a b : DType) : Bool := a.canon = b.canon

/-- Python `==` between an optional type and a type (`None` equals no
type). -/
def optPyEq (a : Option DType) (b : DType) : Bool :=
  match a with
  | some a0 => pyEq a0 b
  | none => false

namespace dtypes

def float : DType := .base .float32 1
def float16 : DType := .base .float16 1
def half : DType := .base .float16 1
def int : DType := .base .int32 1
def bool : DType := .base .bool 1

/-- Modelled from the spec: `dtypes.float.vec n`. -/
def floatVec (n : Nat) : DType := .base .float32 n

/-- Modelled from the spec: whether a type's scalar kind is one of the
integer kinds (`bool` is not an integer kind). -/
def is_int (d : DType) : Bool :=
  match d with
  | .base k _ =>
    match k with
    | .int8 | .int16 | .int32 | .int64
    | .uint8 | .uint16 | .uint32 | .uint64 => true
    | _ => false
  | _ => false

/-- Modelled from the spec: whether a type's scalar kind is a float kind. -/
def is_float (d : DType) : Bool :=
  match d with
  | .base .float16 _ | .base .float32 _ => true
  | _ => false

end dtypes

/-- Modelled from the spec: a Python numeric constant as the renderer
inspects it: NaN, the two infinities, or a finite value.  Finite floats
that appear as constant payloads are whole-number valued in this model,
carried as the integer; Python renders such a float as, e.g., `3.0`. -/
inductive PyNum where
  | nan
  | inf
  | ninf
  | fin (n : Int)
deriving DecidableEq, Repr

/-- Python `x < 0` on a constant (`nan < 0` is `False`). -/
def PyNum.lt0 : PyNum → Bool
  | .nan => false
  | .inf => false
  | .ninf => true
  | .fin n => decide (n < 0)

/-- Python `x >= 0` on a constant (`nan >= 0` is `False`). -/
def PyNum.ge0 : PyNum → Bool
  | .nan => false
  | .inf => true
  | .ninf => false
  | .fin n => decide (0 ≤ n)

/-- Python `f"{float(x)}"` for a finite whole-number value. -/
def PyNum.floatStr (n : Int) : String := toString n ++ ".0"

/-- Python `f"{bool(x)}".lower()` for a finite value. -/
def PyNum.boolStr (n : Int) : String := if n = 0 then "false" else "true"

/-- The arithmetic/logical operator tags (`UnaryOps`, `BinaryOps`,
`TernaryOps` members used by the renderer's operator table). -/
inductive Op where
  | NEG | EXP2 | LOG2 | SIN | SQRT
  | ADD | SUB | MUL | DIV | MAX | MOD | CMPLT | XOR
  | MULACC | WHERE
deriving DecidableEq, Repr

/-- Modelled from the spec: the closed set of operation kinds. -/
inductive UOps where
  | LOOP | IF | END | BARRIER | WMMA | ALU | DEFINE_ACC | SPECIAL
  | CONST | LOAD | PHI | STORE | CAST | DEFINE_LOCAL | DEFINE_GLOBAL | GEP
deriving DecidableEq, Repr

/-- Modelled from the spec: the kind-specific opaque payload of a record
(`None`, an operator tag, a numeric constant, a buffer name, a
name/size pair, the thread-identity triple, the matrix-op backend tag,
the cast tuple whose second slot is the bitcast flag, or a component
index). -/
inductive UArg where
  | null
  | op (o : Op)
  | num (v : PyNum)
  | name (s : String)
  | pair (s : String) (n : Nat)
  | special (i : Nat) (s : String) (n : Nat)
  | wmma (tag : String)
  | castArg (bitcast : Bool)
  | idx (n : Nat)
deriving DecidableEq, Repr

/-- Modelled from the spec: an operation record: an identity, a kind, an
optional result type, the ordered operand records, and the payload.
Record identity (the key of the symbol table and the use-count table) is
the `id` field. -/
inductive UOp where
  | mk (id : Nat) (uop : UOps) (dtype : Option DType) (vin : List UOp) (arg : UArg)

def UOp.id : UOp → Nat | .mk i _ _ _ _ => i
def UOp.uop : UOp → UOps | .mk _ k _ _ _ => k
def UOp.dtype : UOp → Option DType | .mk _ _ d _ _ => d
def UOp.vin : UOp → List UOp | .mk _ _ _ v _ => v
def UOp.arg : UOp → UArg | .mk _ _ _ _ a => a

/-- Modelled from the spec: `strip_parens` removes the redundant outer
parentheses of a rendered expression. -/
def strip_parens (s : String) : String :=
  match s.data with
  | [] => s
  | c :: cs =>
    if c = '(' ∧ cs.getLast? = some ')' then String.mk cs.dropLast else s

/-- Python `str.startswith`, over the character list (kernel-computable). -/
def strStarts (s p : String) : Bool := p.data.isPrefixOf s.data

/-- The failure classes of the renderer, mirroring the Python exception
classes raised by the source: assertion failures (contract violations),
`NotImplementedError` (unsupported backend/feature), the dispatch
fall-through `RuntimeError("failed to render ...")`, and lookup/shape
errors. -/
inductive RErr where
  | assertFail (msg : String)
  | notImplemented (msg : String)
  | renderFail (k : UOps)
  | keyError (msg : String)
  | typeError (msg : String)
  | indexError (msg : String)
deriving DecidableEq, Repr

/-- The default operator table of `CStyleLanguage.code_for_op`.  Each entry
renders an expression from the rendered operand strings and the result
type; a `none` result models a Python arity (TypeError) failure. -/
def baseCodeForOp : Op → Option (List String → DType → Option String)
  | .NEG => some fun xs dt => match xs with
      | [x] => some (if dt ≠ dtypes.bool then "(-" ++ x ++ ")" else "(!" ++ x ++ ")")
      | _ => none
  | .EXP2 => some fun xs _ => match xs with
      | [x] => some ("exp2(" ++ x ++ ")")
      | _ => none
  | .LOG2 => some fun xs _ => match xs with
      | [x] => some ("log2(" ++ x ++ ")")
      | _ => none
  | .SIN => some fun xs _ => match xs with
      | [x] => some ("sin(" ++ x ++ ")")
      | _ => none
  | .SQRT => some fun xs _ => match xs with
      | [x] => some ("sqrt(" ++ x ++ ")")
      | _ => none
  | .ADD => some fun xs _ => match xs with
      | [a, b] => some ("(" ++ a ++ "+" ++ b ++ ")")
      | _ => none
  | .SUB => some fun xs _ => match xs with
      | [a, b] => some ("(" ++ a ++ "-" ++ b ++ ")")
      | _ => none
  | .MUL => some fun xs _ => match xs with
      | [a, b] => some ("(" ++ a ++ "*" ++ b ++ ")")
      | _ => none
  | .DIV => some fun xs _ => match xs with
      | [a, b] => some ("(" ++ a ++ "/" ++ b ++ ")")
      | _ => none
  | .MAX => some fun xs _ => match xs with
      | [a, b] => some ("max(" ++ a ++ "," ++ b ++ ")")
      | _ => none
  | .MOD => some fun xs _ => match xs with
      | [a, b] => some ("(" ++ a ++ "%" ++ b ++ ")")
      | _ => none
  | .CMPLT => some fun xs _ => match xs with
      | [a, b] => some ("(" ++ a ++ "<" ++ b ++ ")")
      | _ => none
  | .XOR => some fun xs _ => match xs with
      | [a, b] => some ("(" ++ a ++ "^" ++ b ++ ")")
      | _ => none
  | .MULACC => some fun xs _ => match xs with
      | [a, b, c] => some ("((" ++ a ++ "*" ++ b ++ ")+" ++ c ++ ")")
      | _ => none
  | .WHERE => some fun xs _ => match xs with
      | [a, b, c] => some ("(" ++ a ++ "?" ++ b ++ ":" ++ c ++ ")")
      | _ => none

/-- The declarative data fields of `CStyleLanguage` (a `NamedTuple` in the
source), with the source's default values. -/
structure LangCfg where
  sizePre : String := "int"
  genericVarPre : String := ""
  kernelPre : String := ""
  bufferPre : String := ""
  bufferSuf : String := ""
  smemAlign : String := ""
  smemPre : String := ""
  smemPreForCast : Bool := true
  argIntPre : String := "const int"
  barrier : String := ""
  xid : List String := []
  gid : List String := []
  lid : List String := []
  globalMax : List Nat := []
  localMax : List Nat := []
  extraArgs : List String := []
  float4 : Option String := none
  halfPrekernel : Option String := none
  usesVload : Bool := false
  externalLocalBufs : Bool := false
  usesPtrArithmetic : Bool := false
  launchBounds : Bool := false
  codeForOp : Op → Option (List String → DType → Option String) := baseCodeForOp

/-- `CStyleLanguage.render_cast`: a bitcast reinterprets the raw bits of
the first operand; a single operand is a type-name cast; several
operands construct a vector, which asserts that the operand count equals
the vector width and that the profile provides a vector constructor. -/
def renderCastBase (cfg : LangCfg) (x : List String) (var_dtype : DType)
    (bitcast : Bool := false) : Except RErr String :=
  if bitcast then
    match x with
    | x0 :: _ =>
      .ok ("(*((" ++ cfg.bufferPre ++ var_dtype.name ++ "*)&" ++ x0 ++ "))")
    | [] => .error (.indexError "list index out of range")
  else if x.length = 1 then
    match x with
    | x0 :: _ => .ok ("(" ++ var_dtype.name ++ ")(" ++ x0 ++ ")")
    | [] => .error (.indexError "list index out of range")
  else if x.length ≠ var_dtype.sz then
    .error (.assertFail "cast is wrong size")
  else
    match cfg.float4 with
    | none => .error (.assertFail "vectorized cast is not supported on this platform")
    | some f4 =>
      .ok ((f4.replace "float4" var_dtype.name) ++ "(" ++ String.intercalate "," x ++ ")")

/-- `CStyleLanguage.render_const`: NaN and the infinities render as the
backend tokens; a finite value is formatted by the result type; vector
or non-basic types are wrapped through the `render_cast` hook `rc`. -/
def renderConstBase (rc : List String → DType → Bool → Except RErr String)
    (x : PyNum) (var_dtype : DType) : Except RErr String :=
  let val : String :=
    match x with
    | .nan => "NAN"
    | .inf => "INFINITY"
    | .ninf => "-INFINITY"
    | .fin n =>
      if dtypes.is_float var_dtype then PyNum.floatStr n ++ "f"
      else if dtypes.is_int var_dtype then toString n
      else PyNum.boolStr n
  if var_dtype.sz > 1 ∨ (pyEq var_dtype dtypes.float = false ∧ pyEq var_dtype dtypes.int = false ∧ pyEq var_dtype dtypes.bool = false) then
    rc (List.replicate var_dtype.sz val) var_dtype false
  else
    .ok val

/-- `CStyleLanguage.render_load`: image buffers use the sampler intrinsic
and assert a float4 value; half-precision vector loads use `vload_half`
on backends that require it; otherwise the access is a (possibly
vector-cast) subscript or pointer dereference, cast through `rc` when
the output type differs from the buffer type. -/
def renderLoadBase (cfg : LangCfg)
    (rc : List String → DType → Bool → Except RErr String)
    (output_dtype : DType) (buf_name : String) (buf_dtype : Option DType)
    (idx : String) (lcl : Bool) : Except RErr String :=
  match buf_dtype with
  | some (.image _nm) =>
    if output_dtype = dtypes.floatVec 4 then
      .ok ("read_imagef(" ++ buf_name ++ ", smp, " ++ idx ++ ")")
    else .error (.assertFail "images must be float4")
  | _ =>
    let vload : Bool :=
      cfg.usesVload &&
        (match buf_dtype with
         | some bd => decide (bd.scalar = dtypes.float16) && decide (output_dtype.scalar ≠ dtypes.float16)
         | none => false)
    if cfg.usesVload ∧ buf_dtype = none then
      .error (.typeError "NoneType has no attribute scalar")
    else if vload then
      .ok ("vload_half" ++ (if output_dtype.sz = 1 then "" else toString output_dtype.sz)
           ++ "(0, " ++ buf_name ++ "+" ++ idx ++ ")")
    else if output_dtype.sz > 1 then
      match buf_dtype with
      | none => .error (.typeError "NoneType has no attribute name")
      | some bd =>
        let out_val := "*((" ++ (if lcl ∧ cfg.smemPreForCast then cfg.smemPre else cfg.bufferPre)
          ++ bd.name ++ toString output_dtype.sz ++ "*)(" ++ buf_name ++ "+" ++ idx ++ "))"
        if optPyEq buf_dtype output_dtype then .ok out_val else rc [out_val] output_dtype false
    else
      let out_val := if cfg.usesPtrArithmetic then "*(" ++ buf_name ++ "+" ++ idx ++ ")"
        else buf_name ++ "[" ++ idx ++ "]"
      if optPyEq buf_dtype output_dtype then .ok out_val else rc [out_val] output_dtype false

/-- `CStyleLanguage.render_local`. -/
def renderLocalBase (cfg : LangCfg) (nm : String) (size : Nat) : String :=
  cfg.smemAlign ++ cfg.smemPre ++ "float " ++ nm ++ "[" ++ toString size ++ "];"

/-- `CStyleLanguage.render_for`. -/
def renderForBase (cfg : LangCfg) (expr mn mx : String) : String :=
  "for (" ++ (if cfg.genericVarPre ≠ "" then cfg.genericVarPre else "int") ++ " "
    ++ expr ++ " = " ++ mn ++ "; " ++ expr ++ " < " ++ mx ++ "; " ++ expr ++ "++) \x7b"

/-- `CStyleLanguage.render_if`. -/
def renderIfBase (cond : String) : String := "if (" ++ cond ++ ") \x7b"

/-- `CStyleLanguage.render_conditional`. -/
def renderConditionalBase (cond x y : String) : String :=
  "(" ++ cond ++ ")?(" ++ x ++ "):" ++ y

/-- `CStyleLanguage.render_store`: image buffers assert a float4 value and
use `write_imagef`; half-precision vector stores use `vstore_half`;
vector values store through a cast pointer; scalars store by pointer
arithmetic or subscript per the profile flag. -/
def renderStoreBase (cfg : LangCfg) (buf_name : String) (buf_dtype : DType)
    (var_name : String) (var_dtype : DType) (idx : String) (lcl : Bool) :
    Except RErr String :=
  match buf_dtype with
  | .image _nm =>
    if var_dtype = dtypes.floatVec 4 then
      .ok ("write_imagef(" ++ buf_name ++ ", " ++ idx ++ ", " ++ var_name ++ ");")
    else .error (.assertFail "images must be float4")
  | _ =>
    if cfg.usesVload ∧ buf_dtype.scalar = dtypes.float16 ∧ var_dtype.scalar ≠ dtypes.float16 then
      .ok ("vstore_half" ++ (if var_dtype.sz = 1 then "" else toString var_dtype.sz)
        ++ "(" ++ var_name ++ ", 0, " ++ buf_name ++ "+" ++ idx ++ ");")
    else if var_dtype.sz > 1 then
      .ok ("*((" ++ (if lcl ∧ cfg.smemPreForCast then cfg.smemPre else cfg.bufferPre)
        ++ buf_dtype.name ++ toString var_dtype.sz ++ "*)(" ++ buf_name ++ "+" ++ idx ++ ")) = ("
        ++ buf_dtype.name ++ toString var_dtype.sz ++ ")" ++ var_name ++ ";")
    else if cfg.usesPtrArithmetic then
      .ok ("*(" ++ buf_name ++ "+" ++ idx ++ ") = " ++ var_name ++ ";")
    else
      .ok (buf_name ++ "[" ++ idx ++ "] = " ++ var_name ++ ";")

/-- Modelled from the spec: the product of the local-size dimensions (the
`prod` helper), with empty product 1. -/
def prodList (l : List Nat) : Nat := l.foldl (fun a b => a * b) 1

/-- `CStyleLanguage.render_kernel`: assembles the kernel text — sampler
preamble when an image buffer is present, parameter qualifiers chosen by
whether the parameter is an image, a pointer or a scalar int, optional
launch bounds, and the optional half-precision preamble.  A buffer whose
type fits none of the three parameter shapes renders its qualifier as
the Python `None` interpolation does. -/
def renderKernelBase (cfg : LangCfg) (function_name : String)
    (kernel : List String) (bufs : List (String × DType))
    (local_size : List Nat) (_prekernel : List String) : String :=
  let tmp : String :=
    if bufs.any (fun p => p.2.isImage) then
      "const sampler_t smp = CLK_NORMALIZED_COORDS_FALSE | CLK_ADDRESS_CLAMP | CLK_FILTER_NEAREST;\n"
    else ""
  let buftypes : List (String × String) :=
    (List.range bufs.length).zip bufs |>.map fun p =>
      let i := p.1
      let nm := p.2.1
      let dt := p.2.2
      (nm,
        if strStarts dt.name "image" then
          (if i > 0 then "read_only" else "write_only") ++ " image2d_t"
        else if dt.isPtr then
          (if i > 0 then "const " else "") ++ cfg.bufferPre ++ dt.name ++ "*" ++ cfg.bufferSuf
        else if pyEq dt dtypes.int then cfg.argIntPre
        else "None")
  let prg : String :=
    cfg.kernelPre ++ "void "
      ++ (if cfg.launchBounds then "__launch_bounds__ (" ++ toString (prodList local_size) ++ ", 1) " else "")
      ++ function_name ++ "("
      ++ String.intercalate ", " ((buftypes.map fun p => p.2 ++ " " ++ p.1) ++ cfg.extraArgs)
      ++ ") \x7b\n" ++ tmp
      ++ String.intercalate "\n" kernel ++ "\n\x7d"
  match cfg.halfPrekernel with
  | some hp =>
    if bufs.any (fun p => pyEq p.2 dtypes.float16) then hp ++ "\n" ++ prg else prg
  | none => prg

/-- The target language profile: the declarative configuration plus the
overridable rendering hooks, each defaulting to the base implementation
over this profile's own configuration (mirroring method dispatch on a
`CStyleLanguage` subclass instance). -/
structure CStyleLanguage where
  cfg : LangCfg := {}
  renderCast : List String → DType → Bool → Except RErr String :=
    fun x dt bc => renderCastBase cfg x dt bc
  renderConst : PyNum → DType → Except RErr String :=
    fun x dt => renderConstBase renderCast x dt
  renderLoad : DType → String → Option DType → String → Bool → Except RErr String :=
    fun out bn bd ix l => renderLoadBase cfg renderCast out bn bd ix l
  renderLocal : String → Nat → String :=
    fun nm sz => renderLocalBase cfg nm sz
  renderFor : String → String → String → String :=
    fun e mn mx => renderForBase cfg e mn mx
  renderIf : String → String := renderIfBase
  renderConditional : String → String → String → String := renderConditionalBase
  renderStore : String → DType → String → DType → String → Bool → Except RErr String :=
    fun bn bd vn vd ix l => renderStoreBase cfg bn bd vn vd ix l
  renderKernel : String → List String → List (String × DType) → List Nat → List String → String :=
    fun fn k b ls pk => renderKernelBase cfg fn k b ls pk

/-- The default profile instance `CStyleLanguage()`. -/
def baseLang : CStyleLanguage := {}

/-- `OpenCLLanguage.type_map`. -/
def openclTypeMap (d : DType) : Option String :=
  match d with
  | .base .uint8 1 => some "uchar"
  | .base .uint32 1 => some "uint"
  | .base .uint16 1 => some "ushort"
  | .base .uint64 1 => some "ulong"
  | _ => none

/-- `OpenCLLanguage.code_for_op`: the base table with `MULACC` overridden
to the fused `mad` intrinsic. -/
def openclCodeForOp : Op → Option (List String → DType → Option String)
  | .MULACC => some fun xs _ => match xs with
      | [a, b, c] => some ("mad(" ++ a ++ "," ++ b ++ "," ++ c ++ ")")
      | _ => none
  | o => baseCodeForOp o

def openclCfg : LangCfg :=
  { kernelPre := "__kernel "
    bufferPre := "__global "
    smemAlign := "__attribute__ ((aligned (16))) "
    smemPre := "__local "
    halfPrekernel := some "#pragma OPENCL EXTENSION cl_khr_fp16 : enable"
    barrier := "barrier(CLK_LOCAL_MEM_FENCE);"
    float4 := some "(float4)"
    gid := ["get_group_id(0)", "get_group_id(1)", "get_group_id(2)"]
    lid := ["get_local_id(0)", "get_local_id(1)", "get_local_id(2)"]
    xid := ["get_global_id(0)", "get_global_id(1)", "get_global_id(2)"]
    usesVload := true
    codeForOp := openclCodeForOp }

/-- `OpenCLLanguage`: overrides `render_cast` so that a bitcast becomes the
`as_<type>` intrinsic, deferring to the base otherwise. -/
def OpenCLLanguage : CStyleLanguage :=
  { cfg := openclCfg
    renderCast := fun x dt bc =>
      if bc then
        match x with
        | x0 :: _ => .ok ("as_" ++ ((openclTypeMap dt).getD dt.name) ++ "(" ++ x0 ++ ")")
        | [] => .error (.indexError "list index out of range")
      else renderCastBase openclCfg x dt false }

def metalCfg : LangCfg :=
  { kernelPre := "#include <metal_stdlib>\nusing namespace metal;\nkernel "
    bufferPre := "device "
    smemPre := "threadgroup "
    argIntPre := "constant int&"
    barrier := "threadgroup_barrier(mem_flags::mem_threadgroup);"
    float4 := some "float4"
    usesPtrArithmetic := true
    gid := ["gid.x", "gid.y", "gid.z"]
    lid := ["lid.x", "lid.y", "lid.z"]
    extraArgs := ["uint3 gid [[threadgroup_position_in_grid]]",
                  "uint3 lid [[thread_position_in_threadgroup]]"] }

/-- `MetalLanguage`: overrides `render_cast` so that a bitcast becomes the
`as_type<...>` form, deferring to the base otherwise. -/
def MetalLanguage : CStyleLanguage :=
  { cfg := metalCfg
    renderCast := fun x dt bc =>
      if bc then
        match x with
        | x0 :: _ => .ok ("as_type<" ++ dt.name ++ ">(" ++ x0 ++ ")")
        | [] => .error (.indexError "list index out of range")
      else renderCastBase metalCfg x dt false }

/-- `code_for_op_half`: half-precision intrinsic overrides shared by the
CUDA and HIP profiles. -/
def codeForOpHalf : Op → Option (List String → DType → Option String)
  | .MAX => some fun xs dt => match xs with
      | [a, b] => some (if dt ≠ dtypes.half then "max(" ++ a ++ "," ++ b ++ ")"
                        else "__hmax(" ++ a ++ "," ++ b ++ ")")
      | _ => none
  | .SQRT => some fun xs dt => match xs with
      | [x] => some (if dt ≠ dtypes.half then "sqrt(" ++ x ++ ")" else "hsqrt(" ++ x ++ ")")
      | _ => none
  | .SIN => some fun xs dt => match xs with
      | [x] => some (if dt ≠ dtypes.half then "sin(" ++ x ++ ")" else "hsin(" ++ x ++ ")")
      | _ => none
  | .LOG2 => some fun xs dt => match xs with
      | [x] => some (if dt ≠ dtypes.half then "log2(" ++ x ++ ")" else "hlog2(" ++ x ++ ")")
      | _ => none
  | .EXP2 => some fun xs dt => match xs with
      | [x] => some (if dt ≠ dtypes.half then "exp2(" ++ x ++ ")" else "hexp2(" ++ x ++ ")")
      | _ => none
  | o => baseCodeForOp o

def cudaCfg : LangCfg :=
  { kernelPre := "#define INFINITY (__int_as_float(0x7f800000))\n#define NAN (__int_as_float(0x7fffffff))\nextern \"C\" __global__ "
    smemPre := "__shared__ "
    smemPreForCast := false
    barrier := "__syncthreads();"
    float4 := some "make_float4"
    gid := ["blockIdx.x", "blockIdx.y", "blockIdx.z"]
    lid := ["threadIdx.x", "threadIdx.y", "threadIdx.z"]
    xid := ["(blockIdx.x*blockDim.x+threadIdx.x)",
            "(blockIdx.y*blockDim.y+threadIdx.y)",
            "(blockIdx.z*blockDim.z+threadIdx.z)"]
    codeForOp := codeForOpHalf
    halfPrekernel := some "\n    #include <cuda_fp16.h>\n    struct half4 \x7b half x, y, z, w; \x7d;\n    __device__ half4 make_half4(half x, half y, half z, half w) \x7b half4 ret; ret.x = x; ret.y = y; ret.z = z; ret.w = w; return ret; \x7d\n  " }

/-- `CUDALanguage`. -/
def CUDALanguage : CStyleLanguage := { cfg := cudaCfg }

def hipCfg : LangCfg :=
  { kernelPre := "#include <hip/hip_common.h>\n#define INFINITY (__builtin_inff())\n#define NAN (__builtin_nanf(\"\"))" ++ "\n  typedef float float8 __attribute__((ext_vector_type(8)));\n  __device__ float8 make_float8(float x, float y, float z, float w, float a, float b, float c, float d) \x7b return \x7bx, y, z, w, a, b, c, d\x7d; \x7d\n  extern \"C\" __global__\n  "
    launchBounds := true
    smemPre := "__shared__ "
    smemPreForCast := false
    barrier := "__syncthreads();"
    float4 := some "make_float4"
    usesPtrArithmetic := true
    halfPrekernel := some "#include <hip/hip_fp16.h>\n\ntypedef union \x7b struct \x7b half x, y, z, w; \x7d __attribute__((aligned(8))); half data[4]; \x7d half4;\n__device__ half4 make_half4(half x, half y, half z, half w) \x7b return \x7bx, y, z, w\x7d; \x7d\ntypedef union \x7b struct \x7b half x, y, z, w, a, b, c, d; \x7d __attribute__((aligned(16))); half data[8]; \x7d half8;\n__device__ half8 make_half8(half x, half y, half z, half w, half a, half b, half c, half d) \x7b return \x7bx, y, z, w, a, b, c, d\x7d; \x7d\n typedef _Float16 half16 __attribute__((ext_vector_type(16)));\n__device__ half16 make_half16(half x, half y, half z, half w, half a, half b, half c, half d,\n                              half e, half f, half g, half h, half i, half j, half k, half l) \x7b\n                                return \x7bx, y, z, w, a, b, c, d, e, f, g, h, i, j, k, l\x7d; \x7d\n  "
    gid := ["blockIdx.x", "blockIdx.y", "blockIdx.z"]
    lid := ["threadIdx.x", "threadIdx.y", "threadIdx.z"]
    xid := ["(blockIdx.x*blockDim.x+threadIdx.x)",
            "(blockIdx.y*blockDim.y+threadIdx.y)",
            "(blockIdx.z*blockDim.z+threadIdx.z)"]
    codeForOp := codeForOpHalf }

/-- `HIPLanguage`. -/
def HIPLanguage : CStyleLanguage := { cfg := hipCfg }

/-- `WGSLLanguage.code_for_op` overrides. -/
def wgslCodeForOp : Op → Option (List String → DType → Option String)
  | .CMPLT => some fun xs _ => match xs with
      | [x, y] => some ("f32(" ++ x ++ "<" ++ y ++ ")")
      | _ => none
  | .MULACC => some fun xs _ => match xs with
      | [x, y, z] => some ("fma(" ++ x ++ "," ++ y ++ "," ++ z ++ ")")
      | _ => none
  | .WHERE => some fun xs _ => match xs with
      | [a, b, c] => some ("select(" ++ c ++ "," ++ b ++ ",bool(" ++ a ++ "))")
      | _ => none
  | o => baseCodeForOp o

/-- `WGSLLanguage.type_map`.  In the source the map is keyed by `DType`
values and a pointer type compares equal to its element type, so the
pointer cases are included here. -/
def wgslTypeMap (d : DType) : Option String :=
  match d with
  | .base .float32 1 => some "f32"
  | .ptr .float32 => some "f32"
  | .base .float16 1 => some "f16"
  | .ptr .float16 => some "f16"
  | .base .int32 1 => some "i32"
  | .ptr .int32 => some "i32"
  | .base .uint32 1 => some "u32"
  | .ptr .uint32 => some "u32"
  | .base .bool 1 => some "f32"
  | .ptr .bool => some "f32"
  | _ => none

def wgslCfg : LangCfg :=
  { gid := ["i32(gindex.x)", "i32(gindex.y)", "i32(gindex.z)"]
    lid := ["i32(lindex.x)", "i32(lindex.y)", "i32(lindex.z)"]
    sizePre := "let"
    barrier := "workgroupBarrier();"
    genericVarPre := "var "
    externalLocalBufs := true
    codeForOp := wgslCodeForOp }

/-- `WGSLLanguage.render_cast`: a missing `type_map` entry is a lookup
failure; an entry present but empty would be the "no cast" error. -/
def wgslRenderCast (x : List String) (var_dtype : DType) (bitcast : Bool) :
    Except RErr String :=
  match wgslTypeMap var_dtype with
  | none => .error (.keyError "type_map")
  | some t =>
    if t ≠ "" then
      match x with
      | x0 :: _ =>
        .ok (if bitcast then "bitcast<" ++ t ++ ">(" ++ x0 ++ ")" else t ++ "(" ++ x0 ++ ")")
      | [] => .error (.indexError "list index out of range")
    else .error (.notImplemented ("no cast for " ++ var_dtype.name))

/-- `WGSLLanguage.render_const`: WGSL NaN/infinity helper calls, otherwise
the base constant parenthesized. -/
def wgslRenderConst (x : PyNum) (var_dtype : DType) : Except RErr String :=
  match x with
  | .nan => .ok "nan()"
  | .inf => .ok "inf(1.0)"
  | .ninf => .ok "-inf(1.0)"
  | .fin n =>
    match renderConstBase wgslRenderCast (.fin n) var_dtype with
    | .ok s => .ok ("(" ++ s ++ ")")
    | .error e => .error e

/-- `WGSLLanguage.render_kernel`: explicit `@group/@binding` declarations
for every buffer, a `@compute` entry point with the reversed local-size
dimensions (defaulting to `[1]`), and the hoisted pre-kernel lines. -/
def wgslRenderKernel (function_name : String) (kernel : List String)
    (bufs : List (String × DType)) (local_size : List Nat)
    (prekernel : List String) : String :=
  let ls : List Nat := if local_size = [] then [1] else local_size.reverse
  let bindings : List String :=
    (List.range bufs.length).zip bufs |>.map fun p =>
      "@group(0) @binding(" ++ toString p.1 ++ ") "
        ++ (if p.2.2.isPtr then "var<storage,read_write>" else "var<uniform>")
        ++ " " ++ p.2.1 ++ ": "
        ++ (if p.2.2.isPtr then "array<" ++ ((wgslTypeMap p.2.2).getD "") ++ ">" else "i32")
        ++ ";"
  "fn nan() -> f32 \x7b let bits = 0xffffffffu; return bitcast<f32>(bits); \x7d\nfn inf(a: f32) -> f32 \x7b return a/0.0; \x7d\n"
    ++ String.intercalate "\n" (prekernel ++ bindings)
    ++ "\n@compute @workgroup_size(" ++ String.intercalate "," (ls.map toString)
    ++ ") fn " ++ function_name
    ++ "(@builtin(workgroup_id) gindex: vec3<u32>, @builtin(local_invocation_id) lindex: vec3<u32>) \x7b\n"
    ++ String.intercalate "\n" kernel ++ "\n\x7d"

/-- `WGSLLanguage`. -/
def WGSLLanguage : CStyleLanguage :=
  { cfg := wgslCfg
    renderCast := wgslRenderCast
    renderConst := wgslRenderConst
    renderLocal := fun nm size =>
      "var<workgroup> " ++ nm ++ ": array<f32," ++ toString size ++ ">;"
    renderIf := fun cond => "if (bool(" ++ cond ++ ")) \x7b"
    renderConditional := fun cond x y =>
      "select(" ++ y ++ ", " ++ x ++ ", bool(" ++ cond ++ "))"
    renderStore := fun buf_name buf_dtype var_name var_dtype idx _lcl =>
      if pyEq var_dtype buf_dtype = false then
        match wgslRenderCast [var_name] buf_dtype false with
        | .ok c => .ok (buf_name ++ "[" ++ idx ++ "] = " ++ c ++ ";")
        | .error e => .error e
      else .ok (buf_name ++ "[" ++ idx ++ "] = " ++ var_name ++ ";")
    renderKernel := wgslRenderKernel }

/-- The engine state of one `uops_to_cstyle` invocation: output buffers,
nesting depth, the per-prefix fresh-name counters `c`, and the symbol
table `r` keyed by record identity. -/
structure RState where
  localSize : List Nat := []
  kernel : List String := []
  prekernel : List String := []
  bufs : List (String × DType) := []
  depth : Int := 1
  c : List (String × Nat) := []
  r : List (Nat × String) := []
deriving DecidableEq, Repr

/-- Python `"  " * depth` (empty for non-positive depth). -/
def indent (d : Int) : String := String.join (List.replicate d.toNat "  ")

/-- The engine's `kk`: append one line at the current indentation. -/
def kk (st : RState) (s : String) : RState :=
  { st with kernel := st.kernel ++ [indent st.depth ++ s] }

/-- Read a fresh-name counter (`defaultdict(int)` read). -/
def getc (c : List (String × Nat)) (p : String) : Nat := (c.lookup p).getD 0

/-- The engine's `ssa`: mint `prefix ++ counter`, bind it in the symbol
table for `u`, and bump the counter. -/
def ssa (st : RState) (u : UOp) (p : String) : RState × String :=
  let n := p ++ toString (getc st.c p)
  ({ st with r := (u.id, n) :: st.r, c := (p, getc st.c p + 1) :: st.c }, n)

/-- Symbol-table read `r[u]`; a missing entry is a Python `KeyError`. -/
def getr (st : RState) (u : UOp) : Except RErr String :=
  match st.r.lookup u.id with
  | some s => .ok s
  | none => .error (.keyError (toString u.id))

/-- Render all operands (`[r[x] for x in vin]`), failing on the first
missing symbol. -/
def getAll (st : RState) : List UOp → Except RErr (List String)
  | [] => .ok []
  | v :: vs =>
    match st.r.lookup v.id with
    | none => .error (.keyError (toString v.id))
    | some s =>
      match getAll st vs with
      | .error e => .error e
      | .ok ss => .ok (s :: ss)

/-- `lang.code_for_op[args](*operands, dtype)`: a missing table entry is a
`KeyError`, an arity mismatch a `TypeError`. -/
def applyOp (lang : CStyleLanguage) (o : Op) (xs : List String) (dt : DType) :
    Except RErr String :=
  match lang.cfg.codeForOp o with
  | none => .error (.keyError "code_for_op")
  | some f =>
    match f xs dt with
    | none => .error (.typeError "wrong operand count")
    | some s => .ok s

/-- The declaration head `lang.generic_var_prefix if lang.generic_var_prefix
else dtype.name` used for materialized temporaries. -/
def varPre (lang : CStyleLanguage) (dt : DType) : String :=
  if lang.cfg.genericVarPre ≠ "" then lang.cfg.genericVarPre else dt.name

/-- Python `'xyzw'[i]`. -/
def xyzw (i : Nat) : Option String :=
  match i with
  | 0 => some "x" | 1 => some "y" | 2 => some "z" | 3 => some "w"
  | _ => none

/-- LOOP: emit a `for` header with a fresh loop index and the two bound
operands, and deepen the nesting. -/
def processLOOP (lang : CStyleLanguage) (st : RState) (u : UOp) :
    Except RErr RState :=
  match u.vin with
  | v0 :: v1 :: _ =>
    let p := ssa st u "ridx"
    match getr p.1 v0 with
    | .error e => .error e
    | .ok mn =>
      match getr p.1 v1 with
      | .error e => .error e
      | .ok mx =>
        let st2 := kk p.1 (lang.renderFor p.2 mn mx)
        .ok { st2 with depth := st2.depth + 1 }
  | _ => .error (.indexError "tuple index out of range")

/-- IF: emit the guard opener and deepen the nesting. -/
def processIF (lang : CStyleLanguage) (st : RState) (u : UOp) :
    Except RErr RState :=
  match u.vin with
  | v0 :: _ =>
    match getr st v0 with
    | .error e => .error e
    | .ok c0 =>
      let st1 := kk st (lang.renderIf c0)
      .ok { st1 with depth := st1.depth + 1 }
  | _ => .error (.indexError "tuple index out of range")

/-- END: shallow the nesting and emit the closing brace.  No balance check
is performed. -/
def processEND (st : RState) : Except RErr RState :=
  .ok (kk { st with depth := st.depth - 1 } "\x7d")

/-- WMMA: backend-tag dispatch; METAL asserts a float2 result and emits the
simdgroup template, HIP asserts a float8 result and emits the builtin
call, any other tag is `NotImplementedError`. -/
def processWMMA (lang : CStyleLanguage) (st : RState) (u : UOp) :
    Except RErr RState :=
  match u.arg with
  | .wmma tag =>
    if tag = "METAL" then
      if u.dtype ≠ some (dtypes.floatVec 2) then
        .error (.assertFail "output dtype of METAL TC is _float2")
      else
        match u.vin with
        | v0 :: v1 :: v2 :: v3 :: v4 :: v5 :: _ =>
          let p := ssa st u "wmma"
          match getAll p.1 [v0, v1, v2, v3, v4, v5] with
          | .error e => .error e
          | .ok xs =>
            match xs with
            | [r0, r1, r2, r3, r4, r5] =>
              let st2 := kk p.1 (varPre lang (dtypes.floatVec 2) ++ " " ++ p.2 ++ ";")
              let st3 := kk st2 "\x7b simdgroup_float8x8 a,b,c;"
              let st4 := kk st3 ("a.thread_elements()[0] = " ++ r0 ++ "; a.thread_elements()[1] = " ++ r1 ++ ";")
              let st5 := kk st4 ("b.thread_elements()[0] = " ++ r2 ++ "; b.thread_elements()[1] = " ++ r3 ++ ";")
              let st6 := kk st5 ("c.thread_elements()[0] = " ++ r4 ++ "; c.thread_elements()[1] = " ++ r5 ++ ";")
              let st7 := kk st6 "simdgroup_multiply_accumulate(c, a, b, c);"
              .ok (kk st7 (p.2 ++ ".x = c.thread_elements()[0]; " ++ p.2 ++ ".y = c.thread_elements()[1]; \x7d"))
            | _ => .error (.indexError "tuple index out of range")
        | _ => .error (.indexError "tuple index out of range")
    else if tag = "HIP" then
      if u.dtype ≠ some (dtypes.floatVec 8) then
        .error (.assertFail "output dtype of HIP TC is _float8")
      else
        match u.vin with
        | v0 :: v1 :: v2 :: _ =>
          let p := ssa st u "wmma"
          match getAll p.1 [v0, v1, v2] with
          | .error e => .error e
          | .ok xs =>
            match xs with
            | [r0, r1, r2] =>
              .ok (kk p.1 (varPre lang (dtypes.floatVec 8) ++ " " ++ p.2
                ++ " = __builtin_amdgcn_wmma_f32_16x16x16_f16_w32(" ++ r0 ++ ", " ++ r1 ++ ", " ++ r2 ++ ");"))
            | _ => .error (.indexError "tuple index out of range")
        | _ => .error (.indexError "tuple index out of range")
    else .error (.notImplemented ("WMMA not implemented for " ++ tag))
  | _ => .error (.typeError "WMMA arg")

/-- ALU: render the expression (with the same-operator parenthesis
stripping), assert the record has consumers, then inline or materialize
per the use-count/type/operator/override rule. -/
def processALU (lang : CStyleLanguage) (expandSSA : Bool) (cc : Nat → Nat)
    (st : RState) (u : UOp) : Except RErr RState :=
  match u.dtype with
  | none => .error (.assertFail "dtype is not None")
  | some dt =>
    match u.arg with
    | .op o =>
      match u.vin with
      | [] => .error (.indexError "tuple index out of range")
      | v0 :: vrest =>
        let valE : Except RErr String :=
          if v0.uop = UOps.ALU ∧ v0.arg = UArg.op o
              ∧ (o = Op.ADD ∨ o = Op.SUB ∨ o = Op.MUL ∨ o = Op.XOR) then
            match getr st v0 with
            | .error e => .error e
            | .ok s0 =>
              match getAll st vrest with
              | .error e => .error e
              | .ok ss => applyOp lang o (strip_parens s0 :: ss) dt
          else
            match getAll st (v0 :: vrest) with
            | .error e => .error e
            | .ok xs => applyOp lang o xs dt
        match valE with
        | .error e => .error e
        | .ok val =>
          if cc u.id = 0 then .error (.assertFail "childless ALU op found")
          else if (cc u.id ≤ 1 ∨ dtypes.is_int dt = true) ∧ o ≠ Op.MAX ∧ expandSSA = false then
            .ok { st with r := (u.id, val) :: st.r }
          else
            let p := ssa st u "alu"
            .ok (kk p.1 (varPre lang dt ++ " " ++ p.2 ++ " = " ++ val ++ ";"))
    | _ => .error (.keyError "code_for_op")

/-- DEFINE_ACC: declare a fresh accumulator initialized to the rendered
constant. -/
def processDEFINE_ACC (lang : CStyleLanguage) (st : RState) (u : UOp) :
    Except RErr RState :=
  match u.dtype with
  | none => .error (.assertFail "dtype is not None")
  | some dt =>
    match u.arg with
    | .num v =>
      let p := ssa st u "acc"
      match lang.renderConst v dt with
      | .error e => .error e
      | .ok cv => .ok (kk p.1 (varPre lang dt ++ " " ++ p.2 ++ " = " ++ cv ++ ";"))
    | _ => .error (.typeError "DEFINE_ACC arg")

/-- SPECIAL: declare the named thread-identity variable from the axis list
chosen by the name's first letter, record a local-size extent for
`l`-axes, and bind the symbol to the name. -/
def processSPECIAL (lang : CStyleLanguage) (st : RState) (u : UOp) :
    Except RErr RState :=
  match u.arg with
  | .special i nm sz =>
    let axisList := if strStarts nm "g" then lang.cfg.gid
      else if strStarts nm "i" then lang.cfg.xid else lang.cfg.lid
    match axisList.get? i with
    | none => .error (.indexError "list index out of range")
    | some e =>
      let st1 := kk st (lang.cfg.sizePre ++ " " ++ nm ++ " = " ++ e ++ "; /* " ++ toString sz ++ " */")
      let st2 := if strStarts nm "l" then { st1 with localSize := st1.localSize ++ [sz] } else st1
      .ok { st2 with r := (u.id, nm) :: st2.r }
  | _ => .error (.typeError "SPECIAL arg")

/-- CONST: bind the rendered literal directly (parenthesized when the value
is negative); no statement is emitted. -/
def processCONST (lang : CStyleLanguage) (st : RState) (u : UOp) :
    Except RErr RState :=
  match u.arg with
  | .num v =>
    match u.dtype with
    | none => .error (.typeError "NoneType dtype")
    | some dt =>
      match lang.renderConst v dt with
      | .error e => .error e
      | .ok s =>
        let s1 := if v.ge0 then s else "(" ++ s ++ ")"
        .ok { st with r := (u.id, s1) :: st.r }
  | _ => .error (.typeError "CONST arg")

/-- LOAD: render the loaded value (conditional when a guard/alternative
pair is supplied) and always materialize it into a fresh `val` name. -/
def processLOAD (lang : CStyleLanguage) (st : RState) (u : UOp) :
    Except RErr RState :=
  match u.dtype with
  | none => .error (.assertFail "dtype is not None")
  | some dt =>
    match u.vin with
    | v0 :: v1 :: vrest =>
      match getr st v0 with
      | .error e => .error e
      | .ok bn =>
        match getr st v1 with
        | .error e => .error e
        | .ok ix =>
          match lang.renderLoad dt bn v0.dtype (strip_parens ix) (decide (v0.uop = UOps.DEFINE_LOCAL)) with
          | .error e => .error e
          | .ok val0 =>
            let valE : Except RErr String :=
              match vrest with
              | v2 :: v3 :: _ =>
                match getr st v2 with
                | .error e => .error e
                | .ok g =>
                  match getr st v3 with
                  | .error e => .error e
                  | .ok alt => .ok (lang.renderConditional g val0 alt)
              | _ => .ok val0
            match valE with
            | .error e => .error e
            | .ok val =>
              let p := ssa st u "val"
              .ok (kk p.1 (varPre lang dt ++ " " ++ p.2 ++ " = " ++ val ++ ";"))
    | _ => .error (.indexError "tuple index out of range")

/-- PHI: assign the second operand into the first operand's symbol and
rebind the PHI record to that symbol. -/
def processPHI (st : RState) (u : UOp) : Except RErr RState :=
  match u.vin with
  | v0 :: v1 :: _ =>
    match getr st v0 with
    | .error e => .error e
    | .ok a =>
      match getr st v1 with
      | .error e => .error e
      | .ok b =>
        let st1 := kk st (a ++ " = " ++ b ++ ";")
        .ok { st1 with r := (u.id, a) :: st1.r }
  | _ => .error (.indexError "tuple index out of range")

/-- STORE: assert the buffer and value types are present; when a fourth
(guard) operand exists, open a guard with `render_if`, emit the store,
and close the brace; otherwise emit the bare store statement. -/
def processSTORE (lang : CStyleLanguage) (st : RState) (u : UOp) :
    Except RErr RState :=
  match u.vin with
  | v0 :: v1 :: v2 :: vrest =>
    match v0.dtype, v2.dtype with
    | some bd, some vd =>
      let gatedE : Except RErr RState :=
        match vrest with
        | v3 :: _ =>
          match getr st v3 with
          | .error e => .error e
          | .ok g => .ok (kk st (lang.renderIf g))
        | [] => .ok st
      match gatedE with
      | .error e => .error e
      | .ok stG =>
        match getr stG v0 with
        | .error e => .error e
        | .ok bn =>
          match getr stG v1 with
          | .error e => .error e
          | .ok ix =>
            match getr stG v2 with
            | .error e => .error e
            | .ok vn =>
              match lang.renderStore bn bd vn vd (strip_parens ix) (decide (v0.uop = UOps.DEFINE_LOCAL)) with
              | .error e => .error e
              | .ok s =>
                let st1 := kk stG s
                match vrest with
                | _ :: _ => .ok (kk st1 "\x7d")
                | [] => .ok st1
    | _, _ => .error (.assertFail "STORE dtype")
  | _ => .error (.indexError "tuple index out of range")

/-- CAST (with a present result type): render via `render_cast` (bitcast
when the payload tuple marks it), inline when the use-count is at most
one, else materialize into a fresh `cast` name. -/
def processCAST (lang : CStyleLanguage) (cc : Nat → Nat) (st : RState)
    (u : UOp) (dt : DType) : Except RErr RState :=
  match getAll st u.vin with
  | .error e => .error e
  | .ok xs =>
    let bc : Bool := match u.arg with | .castArg b => b | _ => false
    match lang.renderCast xs dt bc with
    | .error e => .error e
    | .ok val =>
      if cc u.id ≤ 1 then .ok { st with r := (u.id, val) :: st.r }
      else
        let p := ssa st u "cast"
        .ok (kk p.1 (varPre lang dt ++ " " ++ p.2 ++ " = " ++ val ++ ";"))

/-- DEFINE_LOCAL: emit (or hoist to the pre-kernel, per the profile flag)
the local-memory declaration and bind the symbol to the name. -/
def processDEFINE_LOCAL (lang : CStyleLanguage) (st : RState) (u : UOp) :
    Except RErr RState :=
  match u.arg with
  | .pair nm sz =>
    let decl := lang.renderLocal nm sz
    let st1 := if lang.cfg.externalLocalBufs then { st with prekernel := st.prekernel ++ [decl] }
      else kk st decl
    .ok { st1 with r := (u.id, nm) :: st1.r }
  | _ => .error (.typeError "DEFINE_LOCAL arg")

/-- DEFINE_GLOBAL: assert the type is present, append the (name, type)
pair to the buffer signature list, and bind the symbol to the name. -/
def processDEFINE_GLOBAL (st : RState) (u : UOp) : Except RErr RState :=
  match u.dtype with
  | none => .error (.assertFail "dtype is not None")
  | some dt =>
    match u.arg with
    | .name nm => .ok { st with bufs := st.bufs ++ [(nm, dt)], r := (u.id, nm) :: st.r }
    | _ => .error (.typeError "DEFINE_GLOBAL arg")

/-- GEP: subscript access for vectors wider than 4, named `xyzw` component
access otherwise. -/
def processGEP (st : RState) (u : UOp) : Except RErr RState :=
  match u.vin with
  | v0 :: _ =>
    match v0.dtype with
    | none => .error (.typeError "NoneType has no attribute sz")
    | some d0 =>
      match getr st v0 with
      | .error e => .error e
      | .ok s =>
        match u.arg with
        | .idx i =>
          if d0.sz > 4 then
            .ok { st with r := (u.id, "(" ++ s ++ ")[" ++ toString i ++ "]") :: st.r }
          else
            match xyzw i with
            | some ch => .ok { st with r := (u.id, "(" ++ s ++ ")." ++ ch) :: st.r }
            | none => .error (.indexError "string index out of range")
        | _ => .error (.typeError "GEP arg")
  | _ => .error (.indexError "tuple index out of range")

/-- One step of the `uops_to_cstyle` dispatch loop.  A CAST whose result
type is absent does not match the CAST arm of the source's `elif` chain
and falls through to the final `RuntimeError("failed to render ...")`. -/
def processUOp (lang : CStyleLanguage) (expandSSA : Bool) (cc : Nat → Nat)
    (st : RState) (u : UOp) : Except RErr RState :=
  match u.uop with
  | .LOOP => processLOOP lang st u
  | .IF => processIF lang st u
  | .BARRIER => .ok (kk st lang.cfg.barrier)
  | .END => processEND st
  | .WMMA => processWMMA lang st u
  | .ALU => processALU lang expandSSA cc st u
  | .DEFINE_ACC => processDEFINE_ACC lang st u
  | .SPECIAL => processSPECIAL lang st u
  | .CONST => processCONST lang st u
  | .LOAD => processLOAD lang st u
  | .PHI => processPHI st u
  | .STORE => processSTORE lang st u
  | .CAST =>
    match u.dtype with
    | some dt => processCAST lang cc st u dt
    | none => .error (.renderFail UOps.CAST)
  | .DEFINE_LOCAL => processDEFINE_LOCAL lang st u
  | .DEFINE_GLOBAL => processDEFINE_GLOBAL st u
  | .GEP => processGEP st u

/-- The main pass: fold `processUOp` over the sequence in order. -/
def processUOps (lang : CStyleLanguage) (expandSSA : Bool) (cc : Nat → Nat) :
    RState → List UOp → Except RErr RState
  | st, [] => .ok st
  | st, u :: rest =>
    match processUOp lang expandSSA cc st u with
    | .error e => .error e
    | .ok st1 => processUOps lang expandSSA cc st1 rest

/-- The use-count table: how many records of the sequence reference the
identity `i` as an operand (`Counter(v for ru in uops for v in ru.vin)`). -/
def childCount (uops : List UOp) (i : Nat) : Nat :=
  ((uops.map fun u => u.vin.map UOp.id).flatten).count i

/-- `uops_to_cstyle`: run the pass from the empty state and assemble the
kernel with `render_kernel`.  The source returns the pair
`(kernel_text, {})` — the second component is a literal empty dict,
modelled here as the empty list in the position where a buffer signature
list would live.  `expandSSA` models the `EXPAND_SSA` environment
override read by `getenv` in the source. -/
def uops_to_cstyle (lang : CStyleLanguage) (expandSSA : Bool)
    (function_name : String) (uops : List UOp) :
    Except RErr (String × List (String × DType)) :=
  match processUOps lang expandSSA (childCount uops) {} uops with
  | .error e => .error e
  | .ok st =>
    .ok (lang.renderKernel function_name st.kernel st.bufs st.localSize st.prekernel, [])

/-- The DEFINE_GLOBAL records of a sequence as (name, type) pairs in
emission order — the buffer signature list the pass accumulates. -/
def globalsOf (uops : List UOp) : List (String × DType) :=
  uops.filterMap fun u =>
    match u.uop, u.arg, u.dtype with
    | .DEFINE_GLOBAL, .name nm, some dt => some (nm, dt)
    | _, _, _ => none

/-- The buffer-signature contribution of a single record: a singleton for
a well-formed DEFINE_GLOBAL, empty for everything else. -/
def bufEntry (u : UOp) : List (String × DType) :=
  match u.uop, u.arg, u.dtype with
  | .DEFINE_GLOBAL, .name nm, some dt => [(nm, dt)]
  | _, _, _ => []

/-- The materialization condition for an ALU record as the specification
words it: use-count exceeds 1, and the result type is not an integer
type, and the operator is not max, and the expansion override is not
disabled.  (The last conjunct is read as the `EXPAND_SSA` flag being
unset; the counterexample below is independent of that reading, since it
falsifies one of the first three conjuncts.) -/
def specC2MaterializeCond (useCount : Nat) (dt : DType) (o : Op)
    (expandSSA : Bool) : Prop :=
  1 < useCount ∧ dtypes.is_int dt = false ∧ o ≠ Op.MAX ∧ expandSSA = false

/-- Concrete DEFINE_GLOBAL records A, B, C and a store referencing A. -/
def c1A : UOp := .mk 0 .DEFINE_GLOBAL (some (.ptr .float32)) [] (.name "A")
def c1B : UOp := .mk 1 .DEFINE_GLOBAL (some (.ptr .float32)) [] (.name "B")
def c1C : UOp := .mk 2 .DEFINE_GLOBAL (some (.ptr .float32)) [] (.name "C")
def c1i : UOp := .mk 3 .CONST (some dtypes.int) [] (.num (.fin 0))
def c1v : UOp := .mk 4 .CONST (some dtypes.float) [] (.num (.fin 1))
def c1s : UOp := .mk 5 .STORE none [c1A, c1i, c1v] .null

/-- A sequence declaring buffers A, B, C in that order and then
referencing A again in a store. -/
def c1prog : List UOp := [c1A, c1B, c1C, c1i, c1v, c1s]

/-- The final engine state of the pass over `c1prog`. -/
def c1final : RState :=
  { kernel := ["  A[0] = 1.0f;"]
    bufs := [("A", .ptr .float32), ("B", .ptr .float32), ("C", .ptr .float32)]
    r := [(4, "1.0f"), (3, "0"), (2, "C"), (1, "B"), (0, "A")] }

/-- An END record with no matching LOOP or IF anywhere. -/
def c4end : UOp := .mk 0 .END none [] .null

/-- Two already-rendered float constants and a state binding them. -/
def c2a : UOp := .mk 0 .CONST (some dtypes.float) [] (.num (.fin 1))
def c2b : UOp := .mk 1 .CONST (some dtypes.float) [] (.num (.fin 2))
def c2st : RState := { r := [(0, "1.0f"), (1, "2.0f")] }

/-- A float `max` ALU record with exactly one consumer. -/
def c2u : UOp := .mk 2 .ALU (some dtypes.float) [c2a, c2b] (.op .MAX)

/-- A float `add` ALU record with exactly one consumer. -/
def c2w : UOp := .mk 2 .ALU (some dtypes.float) [c2a, c2b] (.op .ADD)

/-- The state after processing `c2w` when it is inlined. -/
def c2wfinal : RState := { c2st with r := (2, "(1.0f+2.0f)") :: c2st.r }

/-- Records for a store of a constant into a float buffer: the buffer, an
index, a value, and a guard whose symbols are pre-bound in `sst`. -/
def sb : UOp := .mk 0 .DEFINE_GLOBAL (some (.ptr .float32)) [] (.name "out")
def sx : UOp := .mk 1 .CONST (some dtypes.int) [] (.num (.fin 0))
def sv : UOp := .mk 2 .CONST (some dtypes.float) [] (.num (.fin 1))
def sg : UOp := .mk 3 .ALU (some dtypes.bool) [] (.op .CMPLT)
def sst : RState := { r := [(0, "out"), (1, "0"), (2, "1.0f"), (3, "gate0")] }

/-- A STORE with a fourth (guard) operand and the same STORE without it. -/
def s4 : UOp := .mk 4 .STORE none [sb, sx, sv, sg] .null
def s3 : UOp := .mk 4 .STORE none [sb, sx, sv] .null

/-- A plain LOAD and a predicated LOAD over the same state. -/
def c6u : UOp := .mk 5 .LOAD (some dtypes.float) [sb, sx] .null
def c6g : UOp := .mk 5 .LOAD (some dtypes.float) [sb, sx, sg, sv] .null

/-- A matrix-multiply-accumulate record with an unrecognized backend tag. -/
def c8u : UOp := .mk 0 .WMMA (some (dtypes.floatVec 2)) [] (.wmma "CUDA")

/-- A float `add` ALU record (used with a use-count table reporting zero
consumers). -/
def c9u : UOp := .mk 2 .ALU (some dtypes.float) [c2a, c2b] (.op .ADD)

deriving instance DecidableEq for Except

theorem kk_r (st : RState) (s : String) : (kk st s).r = st.r := rfl

theorem kk_c (st : RState) (s : String) : (kk st s).c = st.c := rfl

theorem kk_bufs (st : RState) (s : String) : (kk st s).bufs = st.bufs := rfl

theorem kk_depth (st : RState) (s : String) : (kk st s).depth = st.depth := rfl

theorem kk_kernel (st : RState) (s : String) :
    (kk st s).kernel = st.kernel ++ [indent st.depth ++ s] := rfl

theorem ssa_bufs (st : RState) (u : UOp) (p : String) :
    (ssa st u p).1.bufs = st.bufs := rfl

/-- Claim C10 (confirmed): a CAST record whose result type is absent does
not match the CAST arm of the dispatch and falls through to the fatal
"failed to render" error of the default arm — it is never rendered as a
cast. -/
theorem C10_cast_none_falls_through (lang : CStyleLanguage) (e : Bool)
    (cc : Nat → Nat) (st : RState) (i : Nat) (vin : List UOp) (a : UArg) :
    processUOp lang e cc st (.mk i .CAST none vin a) =
      .error (.renderFail UOps.CAST) := rfl

/-- Claim C4 counterexample: a sequence consisting of a single END record —
an END with no matching LOOP or IF — renders successfully and produces
output instead of raising a fatal error. -/
theorem C4_counterexample :
    uops_to_cstyle baseLang false "k" [c4end] =
      .ok ("void k() \x7b\n\x7d\n\x7d", []) := by decide

/-- Claim C4 (amended): the renderer performs no scope-balance check.  An
END record always succeeds: it merely decrements the indentation depth
and emits a closing brace, whatever the current depth; balance of
LOOP/IF/END is an unchecked precondition on the upstream producer, not
an error the renderer detects. -/
theorem C4_amended (lang : CStyleLanguage) (e : Bool) (cc : Nat → Nat)
    (st : RState) (i : Nat) (d : Option DType) (vin : List UOp) (a : UArg) :
    processUOp lang e cc st (.mk i .END d vin a) =
      .ok { st with depth := st.depth - 1,
                    kernel := st.kernel ++ [indent (st.depth - 1) ++ "\x7d"] } := rfl

/-- Claim C7 (confirmed): on every profile, a scalar float constant equal
to positive infinity renders as that backend's infinity token, NaN as
its NaN token, and a boolean constant as the profile's boolean literal
(`true`/`false`, parenthesized on the WGSL profile). -/
theorem C7_const_tokens :
    baseLang.renderConst .inf dtypes.float = .ok "INFINITY" ∧
    baseLang.renderConst .nan dtypes.float = .ok "NAN" ∧
    baseLang.renderConst (.fin 1) dtypes.bool = .ok "true" ∧
    baseLang.renderConst (.fin 0) dtypes.bool = .ok "false" ∧
    OpenCLLanguage.renderConst .inf dtypes.float = .ok "INFINITY" ∧
    OpenCLLanguage.renderConst .nan dtypes.float = .ok "NAN" ∧
    OpenCLLanguage.renderConst (.fin 1) dtypes.bool = .ok "true" ∧
    OpenCLLanguage.renderConst (.fin 0) dtypes.bool = .ok "false" ∧
    MetalLanguage.renderConst .inf dtypes.float = .ok "INFINITY" ∧
    MetalLanguage.renderConst .nan dtypes.float = .ok "NAN" ∧
    MetalLanguage.renderConst (.fin 1) dtypes.bool = .ok "true" ∧
    MetalLanguage.renderConst (.fin 0) dtypes.bool = .ok "false" ∧
    CUDALanguage.renderConst .inf dtypes.float = .ok "INFINITY" ∧
    CUDALanguage.renderConst .nan dtypes.float = .ok "NAN" ∧
    CUDALanguage.renderConst (.fin 1) dtypes.bool = .ok "true" ∧
    CUDALanguage.renderConst (.fin 0) dtypes.bool = .ok "false" ∧
    HIPLanguage.renderConst .inf dtypes.float = .ok "INFINITY" ∧
    HIPLanguage.renderConst .nan dtypes.float = .ok "NAN" ∧
    HIPLanguage.renderConst (.fin 1) dtypes.bool = .ok "true" ∧
    HIPLanguage.renderConst (.fin 0) dtypes.bool = .ok "false" ∧
    WGSLLanguage.renderConst .inf dtypes.float = .ok "inf(1.0)" ∧
    WGSLLanguage.renderConst .nan dtypes.float = .ok "nan()" ∧
    WGSLLanguage.renderConst (.fin 1) dtypes.bool = .ok "(true)" ∧
    WGSLLanguage.renderConst (.fin 0) dtypes.bool = .ok "(false)" := by
  decide

/-- Claim C3 counterexample: a non-bitcast `render_cast` call with a single
operand and a target vector type of width 4 succeeds (it takes the
scalar type-name-cast path), although the operand count differs from the
vector width — so supplying N not equal to W does not always fail. -/
theorem C3_counterexample :
    renderCastBase {} ["x"] (dtypes.floatVec 4) false = .ok "(float4)(x)" ∧
    (["x"].length ≠ (dtypes.floatVec 4).sz) := by decide

/-- Claim C3 (amended): the width check applies only to genuine vector
construction: a non-bitcast `render_cast` call with at least two operand
strings succeeds exactly when the operand count equals the target vector
width and the profile defines a vector constructor; a single-operand
call renders a scalar-syntax cast regardless of the target width, and a
bitcast ignores the width entirely. -/
theorem C3_amended (cfg : LangCfg) (x : List String) (dt : DType)
    (h2 : 2 ≤ x.length) :
    (∃ s, renderCastBase cfg x dt false = .ok s) ↔
      (x.length = dt.sz ∧ cfg.float4 ≠ none) := by
  have h1 : ¬ (x.length = 1) := by omega
  unfold renderCastBase
  simp only [Bool.false_eq_true, if_false, h1, ne_eq]
  by_cases hsz : x.length = dt.sz
  · simp only [hsz, not_true_eq_false, if_false]
    cases hf : cfg.float4 with
    | none => simp
    | some f4 => simp
  · simp only [hsz, not_false_eq_true, if_true]
    simp [hsz]

/-- Claim C3 witness: the amended statement applied to a two-operand cast
to a width-2 float vector on the OpenCL profile. -/
theorem C3_amended_witness :
    (∃ s, renderCastBase openclCfg ["a", "b"] (dtypes.floatVec 2) false = .ok s) ↔
      (["a", "b"].length = (dtypes.floatVec 2).sz ∧ openclCfg.float4 ≠ none) :=
  C3_amended openclCfg ["a", "b"] (dtypes.floatVec 2) (by decide)

/-- Claim C5 (confirmed): a STORE record carrying a fourth (guard) operand
emits exactly the guarded block — the `render_if` opener over the
guard's rendered expression, the store statement, and a closing brace —
never an unguarded store; the same STORE without the fourth operand
emits exactly the bare store statement. -/
theorem C5_store_guarded (lang : CStyleLanguage) (e : Bool) (cc : Nat → Nat)
    (st : RState) (i : Nat) (d : Option DType) (a : UArg)
    (b x v g : UOp) (bd vd : DType) (bn ix vn gs s : String)
    (hbd : b.dtype = some bd) (hvd : v.dtype = some vd)
    (hbn : st.r.lookup b.id = some bn) (hix : st.r.lookup x.id = some ix)
    (hvn : st.r.lookup v.id = some vn) (hgs : st.r.lookup g.id = some gs)
    (hs : lang.renderStore bn bd vn vd (strip_parens ix)
        (decide (b.uop = UOps.DEFINE_LOCAL)) = .ok s) :
    processUOp lang e cc st (.mk i .STORE d [b, x, v, g] a) =
      .ok { st with kernel := st.kernel ++
        [indent st.depth ++ lang.renderIf gs, indent st.depth ++ s,
         indent st.depth ++ "\x7d"] } ∧
    processUOp lang e cc st (.mk i .STORE d [b, x, v] a) =
      .ok { st with kernel := st.kernel ++ [indent st.depth ++ s] } := by
  obtain ⟨bi, bk, bdt, bvin, barg⟩ := b
  obtain ⟨xi, xk, xdt, xvin, xarg⟩ := x
  obtain ⟨vi, vk, vdt, vvin, varg⟩ := v
  obtain ⟨gi, gk, gdt, gvin, garg⟩ := g
  simp only [UOp.dtype] at hbd hvd
  simp only [UOp.id] at hbn hix hvn hgs
  simp only [UOp.uop] at hs
  subst hbd hvd
  refine ⟨?_, ?_⟩ <;>
    simp only [processUOp, UOp.uop, processSTORE, UOp.vin, UOp.dtype, UOp.id,
      getr, kk_r, hbn, hix, hvn, hgs, hs] <;>
    simp [kk]

/-- Claim C5 witness: the guarded and unguarded STORE conclusions at a
concrete buffer, index, value and guard. -/
theorem C5_witness :
    processUOp baseLang false (fun _ => 1) sst s4 =
      .ok { sst with kernel := sst.kernel ++
        ["  if (gate0) \x7b", "  out[0] = 1.0f;", "  \x7d"] } ∧
    processUOp baseLang false (fun _ => 1) sst s3 =
      .ok { sst with kernel := sst.kernel ++ ["  out[0] = 1.0f;"] } := by
  have h := C5_store_guarded baseLang false (fun _ => 1) sst 4 none .null
    sb sx sv sg (.ptr .float32) dtypes.float "out" "0" "1.0f" "gate0" "out[0] = 1.0f;"
    rfl rfl rfl rfl rfl rfl (by decide)
  exact ⟨h.1.trans (by decide), h.2.trans (by decide)⟩

/-- Claim C6 (confirmed): a LOAD record — whatever its use-count, and
whether or not it carries the predication pair — emits exactly one
declaration binding the loaded value to a fresh `val` temporary, binds
the symbol table entry to that name, and is never inlined. -/
theorem C6_load_materializes (lang : CStyleLanguage) (e : Bool)
    (cc : Nat → Nat) (st : RState) (i : Nat) (dt : DType) (a : UArg)
    (b x g al : UOp) (bn ix gs als val : String)
    (hbn : st.r.lookup b.id = some bn) (hix : st.r.lookup x.id = some ix)
    (hgs : st.r.lookup g.id = some gs) (hal : st.r.lookup al.id = some als)
    (hval : lang.renderLoad dt bn b.dtype (strip_parens ix)
        (decide (b.uop = UOps.DEFINE_LOCAL)) = .ok val) :
    processUOp lang e cc st (.mk i .LOAD (some dt) [b, x] a) =
      .ok { st with
        r := (i, "val" ++ toString (getc st.c "val")) :: st.r,
        c := ("val", getc st.c "val" + 1) :: st.c,
        kernel := st.kernel ++ [indent st.depth ++ (varPre lang dt ++ " "
          ++ ("val" ++ toString (getc st.c "val")) ++ " = " ++ val ++ ";")] } ∧
    processUOp lang e cc st (.mk i .LOAD (some dt) [b, x, g, al] a) =
      .ok { st with
        r := (i, "val" ++ toString (getc st.c "val")) :: st.r,
        c := ("val", getc st.c "val" + 1) :: st.c,
        kernel := st.kernel ++ [indent st.depth ++ (varPre lang dt ++ " "
          ++ ("val" ++ toString (getc st.c "val")) ++ " = "
          ++ lang.renderConditional gs val als ++ ";")] } := by
  obtain ⟨bi, bk, bdt, bvin, barg⟩ := b
  obtain ⟨xi, xk, xdt, xvin, xarg⟩ := x
  obtain ⟨gi, gk, gdt, gvin, garg⟩ := g
  obtain ⟨ai, ak, adt, avin, aarg⟩ := al
  simp only [UOp.id] at hbn hix hgs hal
  simp only [UOp.uop, UOp.dtype] at hval
  refine ⟨?_, ?_⟩ <;>
    simp only [processUOp, UOp.uop, processLOAD, UOp.vin, UOp.dtype, UOp.id,
      getr, hbn, hix, hgs, hal, hval] <;>
    simp [ssa, kk, UOp.id]

/-- Claim C6 witness: the plain and predicated LOAD conclusions at a
concrete buffer and index, with a use-count table reporting five
consumers (the load is still materialized exactly once, bound to the
fresh name, not inlined). -/
theorem C6_witness :
    processUOp baseLang false (fun _ => 5) sst c6u =
      .ok { sst with
        r := (5, "val0") :: sst.r, c := [("val", 1)],
        kernel := ["  float val0 = out[0];"] } ∧
    processUOp baseLang false (fun _ => 5) sst c6g =
      .ok { sst with
        r := (5, "val0") :: sst.r, c := [("val", 1)],
        kernel := ["  float val0 = (gate0)?(out[0]):1.0f;"] } := by
  have h := C6_load_materializes baseLang false (fun _ => 5) sst 5 dtypes.float .null
    sb sx sg sv "out" "0" "gate0" "1.0f" "out[0]"
    rfl rfl rfl rfl (by decide)
  exact ⟨h.1.trans (by decide), h.2.trans (by decide)⟩

/-- Claim C2 counterexample: a float `max` ALU record with use-count
exactly 1 is materialized by the code — a declaration with the fresh
name `alu0` is emitted and the symbol table binds that name — although
the claimed materialization condition (which requires use-count above 1
and an operator other than max) is false at this input. -/
theorem C2_counterexample :
    processUOp baseLang false (fun _ => 1) c2st c2u =
      .ok { c2st with kernel := ["  float alu0 = max(1.0f,2.0f);"],
                      c := [("alu", 1)], r := (2, "alu0") :: c2st.r } ∧
    ¬ specC2MaterializeCond 1 dtypes.float .MAX false := by
  refine ⟨by decide, fun h => h.2.2.1 rfl⟩

/-- Claim C2 (amended): an ALU record that renders successfully is
materialized exactly when NOT ((its use-count is at most 1 or its result
type is an integer type) and its operator is not max and the expansion
override is unset); in the remaining cases — use-count at most 1 or
integer result, operator not max, override unset — the symbol table is
bound to the raw inline expression and no declaration is emitted. -/
theorem C2_amended (lang : CStyleLanguage) (e : Bool) (cc : Nat → Nat)
    (st : RState) (i : Nat) (dt : DType) (o : Op) (v0 : UOp)
    (vrest : List UOp) (st' : RState)
    (h : processUOp lang e cc st (.mk i .ALU (some dt) (v0 :: vrest) (.op o)) =
      .ok st') :
    if (cc i ≤ 1 ∨ dtypes.is_int dt = true) ∧ o ≠ Op.MAX ∧ e = false then
      st'.kernel = st.kernel ∧ st'.c = st.c ∧ ∃ val, st'.r = (i, val) :: st.r
    else
      ∃ val, st'.r = (i, "alu" ++ toString (getc st.c "alu")) :: st.r ∧
        st'.c = ("alu", getc st.c "alu" + 1) :: st.c ∧
        st'.kernel = st.kernel ++ [indent st.depth ++ (varPre lang dt ++ " "
          ++ ("alu" ++ toString (getc st.c "alu")) ++ " = " ++ val ++ ";")] := by
  simp only [processUOp, UOp.uop, processALU, UOp.dtype, UOp.arg, UOp.vin,
    UOp.id] at h
  split at h
  · exact absurd h (by simp)
  · rename_i val hval
    split at h
    · exact absurd h (by simp)
    · split at h
      · rename_i hcond
        rw [if_pos hcond]
        injection h with h
        subst h
        exact ⟨rfl, rfl, val, rfl⟩
      · rename_i hcond
        rw [if_neg hcond]
        injection h with h
        subst h
        exact ⟨val, by simp [ssa, kk, UOp.id, getc]⟩

/-- Claim C2 witness: the amended statement applied to a float `add`
record with use-count 1 — the inline case: no line is emitted, no
counter moves, and the symbol table receives the raw expression. -/
theorem C2_amended_witness :
    c2wfinal.kernel = c2st.kernel ∧ c2wfinal.c = c2st.c ∧
      ∃ val, c2wfinal.r = (2, val) :: c2st.r := by
  have h := C2_amended baseLang false (fun _ => 1) c2st 2 dtypes.float .ADD
    c2a [c2b] c2wfinal (by decide)
  rwa [if_pos (by decide)] at h

/-- Claim C9 (confirmed): an ALU record whose rendered expression is
computable but whose use-count is zero fails with the fatal defensive
"childless ALU op found" assertion — it is neither dropped nor emitted —
while the same record under a use-count of at least one renders
successfully. -/
theorem C9_childless_alu (lang : CStyleLanguage) (e : Bool) (cc : Nat → Nat)
    (st : RState) (i : Nat) (dt : DType) (o : Op) (v0 : UOp)
    (vrest : List UOp) (xs : List String) (val : String)
    (hnopt : ¬ (v0.uop = UOps.ALU ∧ v0.arg = UArg.op o ∧
      (o = Op.ADD ∨ o = Op.SUB ∨ o = Op.MUL ∨ o = Op.XOR)))
    (hxs : getAll st (v0 :: vrest) = .ok xs)
    (happ : applyOp lang o xs dt = .ok val) :
    (cc i = 0 →
      processUOp lang e cc st (.mk i .ALU (some dt) (v0 :: vrest) (.op o)) =
        .error (.assertFail "childless ALU op found")) ∧
    (cc i ≠ 0 → ∃ st',
      processUOp lang e cc st (.mk i .ALU (some dt) (v0 :: vrest) (.op o)) =
        .ok st') := by
  obtain ⟨vi, vk, vdt, vvin, varg⟩ := v0
  simp only [UOp.uop, UOp.arg] at hnopt
  simp only [processUOp, UOp.uop, processALU, UOp.dtype, UOp.arg, UOp.vin,
    UOp.id, if_neg hnopt, hxs, happ]
  constructor
  · intro h0
    rw [if_pos h0]
  · intro h0
    rw [if_neg h0]
    by_cases hc : (cc i ≤ 1 ∨ dtypes.is_int dt = true) ∧ o ≠ Op.MAX ∧ e = false
    · rw [if_pos hc]
      exact ⟨_, rfl⟩
    · rw [if_neg hc]
      exact ⟨_, rfl⟩

/-- Claim C9 witness: the childless-failure conclusion at a concrete float
`add` record whose use-count table reports zero consumers. -/
theorem C9_witness :
    processUOp baseLang false (fun _ => 0) c2st c9u =
      .error (.assertFail "childless ALU op found") := by
  have h := C9_childless_alu baseLang false (fun _ => 0) c2st 2 dtypes.float
    .ADD c2a [c2b] ["1.0f", "2.0f"] "(1.0f+2.0f)" (by decide) (by decide)
    (by decide)
  exact h.1 rfl

/-- Claim C8 (confirmed): matrix-multiply-accumulate dispatches on the
backend tag: METAL asserts a width-2 float vector result and emits its
fixed seven-line simdgroup template, HIP asserts a width-8 float vector
result and emits its single builtin call, a result type differing from
the required one fails with the assertion error, and any other tag fails
with the "not implemented" error — a different error class than the
assertion (contract-violation) one. -/
theorem C8_wmma_dispatch (lang : CStyleLanguage) (e : Bool) (cc : Nat → Nat)
    (st : RState) (i : Nat) (d : Option DType) (vin : List UOp)
    (tag : String) :
    (tag ≠ "METAL" → tag ≠ "HIP" →
      processUOp lang e cc st (.mk i .WMMA d vin (.wmma tag)) =
        .error (.notImplemented ("WMMA not implemented for " ++ tag))) ∧
    (d ≠ some (dtypes.floatVec 2) →
      processUOp lang e cc st (.mk i .WMMA d vin (.wmma "METAL")) =
        .error (.assertFail "output dtype of METAL TC is _float2")) ∧
    (d ≠ some (dtypes.floatVec 8) →
      processUOp lang e cc st (.mk i .WMMA d vin (.wmma "HIP")) =
        .error (.assertFail "output dtype of HIP TC is _float8")) ∧
    (∀ s t, RErr.notImplemented s ≠ RErr.assertFail t) ∧
    (∀ v0 v1 v2 v3 v4 v5 rest r0 r1 r2 r3 r4 r5,
      vin = v0 :: v1 :: v2 :: v3 :: v4 :: v5 :: rest →
      getAll (ssa st (.mk i .WMMA (some (dtypes.floatVec 2)) vin
          (.wmma "METAL")) "wmma").1 [v0, v1, v2, v3, v4, v5] =
        .ok [r0, r1, r2, r3, r4, r5] →
      ∃ st', processUOp lang e cc st
          (.mk i .WMMA (some (dtypes.floatVec 2)) vin (.wmma "METAL")) =
          .ok st' ∧ st'.kernel.length = st.kernel.length + 7) ∧
    (∀ v0 v1 v2 rest r0 r1 r2,
      vin = v0 :: v1 :: v2 :: rest →
      getAll (ssa st (.mk i .WMMA (some (dtypes.floatVec 8)) vin
          (.wmma "HIP")) "wmma").1 [v0, v1, v2] = .ok [r0, r1, r2] →
      ∃ st', processUOp lang e cc st
          (.mk i .WMMA (some (dtypes.floatVec 8)) vin (.wmma "HIP")) =
          .ok st' ∧ st'.kernel.length = st.kernel.length + 1) := by
  refine ⟨?_, ?_, ?_, ?_, ?_, ?_⟩
  · intro h1 h2
    simp only [processUOp, UOp.uop, processWMMA, UOp.arg, if_neg h1, if_neg h2]
  · intro hd
    simp [processUOp, UOp.uop, processWMMA, UOp.arg, UOp.dtype, hd]
  · intro hd
    simp [processUOp, UOp.uop, processWMMA, UOp.arg, UOp.dtype, hd]
  · intro s t hst
    exact RErr.noConfusion hst
  · intro v0 v1 v2 v3 v4 v5 rest r0 r1 r2 r3 r4 r5 hvin hxs
    subst hvin
    simp only [processUOp, UOp.uop, processWMMA, UOp.arg, UOp.dtype, UOp.vin,
      reduceIte]
    simp only [hxs]
    simp [kk, ssa, UOp.id]
  · intro v0 v1 v2 rest r0 r1 r2 hvin hxs
    subst hvin
    simp only [processUOp, UOp.uop, processWMMA, UOp.arg, UOp.dtype, UOp.vin,
      reduceIte]
    simp only [hxs]
    simp [kk, ssa, UOp.id]

/-- Claim C8 witness: the unrecognized-tag conclusion at a concrete record
tagged "CUDA". -/
theorem C8_witness :
    processUOp baseLang false (fun _ => 0) {} c8u =
      .error (.notImplemented "WMMA not implemented for CUDA") := by
  have h := (C8_wmma_dispatch baseLang false (fun _ => 0) {} 0
    (some (dtypes.floatVec 2)) [] "CUDA").1 (by decide) (by decide)
  exact h.trans (by decide)

theorem globalsOf_cons (u : UOp) (rest : List UOp) :
    globalsOf (u :: rest) = bufEntry u ++ globalsOf rest := by
  obtain ⟨i, k, d, vin, a⟩ := u
  cases k <;> try rfl
  cases a <;> try rfl
  cases d <;> rfl

theorem processSTORE_bufs (lang : CStyleLanguage) (st : RState) (u : UOp)
    (st' : RState) (h : processSTORE lang st u = .ok st') :
    st'.bufs = st.bufs := by
  simp only [processSTORE] at h
  repeat' split at h
  all_goals simp at h
  all_goals (subst h; simp only [kk_bufs]; try rfl)
  all_goals rename_i heqG
  all_goals repeat' (first | split at heqG | simp at heqG)
  all_goals (subst heqG; simp [kk])

/-- One engine step extends the buffer signature list by exactly the
record's own contribution: a DEFINE_GLOBAL appends its (name, type)
pair, every other kind leaves the list unchanged. -/
theorem processUOp_bufs (lang : CStyleLanguage) (e : Bool) (cc : Nat → Nat)
    (st : RState) (u : UOp) (st' : RState)
    (h : processUOp lang e cc st u = .ok st') :
    st'.bufs = st.bufs ++ bufEntry u := by
  obtain ⟨i, k, d, vin, a⟩ := u
  cases k
  case STORE =>
    simp only [processUOp, UOp.uop] at h
    have hb := processSTORE_bufs lang st _ st' h
    simp [bufEntry, UOp.uop, hb]
  all_goals
    simp only [processUOp, processLOOP, processIF, processEND, processWMMA,
      processALU, processDEFINE_ACC, processSPECIAL, processCONST,
      processLOAD, processPHI, processCAST,
      processDEFINE_LOCAL, processDEFINE_GLOBAL, processGEP, bufEntry,
      UOp.uop, UOp.arg, UOp.dtype, UOp.vin, UOp.id] at h ⊢
  all_goals
    (repeat' split at h) <;>
    first
      | (injection h with h; subst h; simp [kk, ssa, apply_ite])
      | injection h

theorem processUOps_bufs (lang : CStyleLanguage) (e : Bool) (cc : Nat → Nat) :
    ∀ (uops : List UOp) (st st' : RState),
      processUOps lang e cc st uops = .ok st' →
      st'.bufs = st.bufs ++ globalsOf uops := by
  intro uops
  induction uops with
  | nil =>
    intro st st' h
    injection h with h
    subst h
    simp [globalsOf]
  | cons u rest ih =>
    intro st st' h
    simp only [processUOps] at h
    split at h
    · injection h
    · rename_i st1 heq
      have hb := processUOp_bufs lang e cc st u st1 heq
      have hr := ih st1 st' h
      rw [hr, hb, globalsOf_cons, List.append_assoc]

/-- Claim C1 (amended): over any operation sequence that processes
successfully, the buffer signature list the pass accumulates (and hands
to `render_kernel`, which lays the buffers out as the kernel's
parameters) is exactly the DEFINE_GLOBAL records' (name, type) pairs in
emission order — however often each buffer is referenced afterwards.
The render call itself returns the kernel text paired with an empty
dict; the signature list is not part of the return value. -/
theorem C1_amended (lang : CStyleLanguage) (e : Bool) (uops : List UOp)
    (st' : RState)
    (h : processUOps lang e (childCount uops) {} uops = .ok st') :
    st'.bufs = globalsOf uops := by
  have hb := processUOps_bufs lang e (childCount uops) uops {} st' h
  simpa using hb

/-- Claim C1 witness: the pass over `c1prog` — buffers A, B, C declared in
that order, A referenced again by a later store — ends in `c1final`,
whose signature list is exactly the three pairs in declaration order. -/
theorem C1_amended_witness : c1final.bufs = globalsOf c1prog :=
  C1_amended baseLang false c1prog c1final (by decide)

/-- Claim C1 counterexample: rendering a sequence with DEFINE_GLOBAL
records A, B, C in that order succeeds, but the value returned by the
render call carries an empty second component (the source returns
`(kernel_text, {})`) — not the buffer signature list [A, B, C]; the
buffers appear only inside the kernel text's parameter list. -/
theorem C1_counterexample :
    uops_to_cstyle baseLang false "k" c1prog =
      .ok ("void k(float* A, const float* B, const float* C) \x7b\n  A[0] = 1.0f;\n\x7d", []) ∧
    ([] : List (String × DType)) ≠
      [("A", .ptr .float32), ("B", .ptr .float32), ("C", .ptr .float32)] :=
  ⟨by decide, by decide⟩
